import Mathlib

/-!
# Verification of the `cc` provider switcher (storage and switch logic)

A shallow embedding of the repository's two storage modules and its switch
coordinator:

* `claude-settings` — the live settings store (`loadClaudeSettings`,
  `saveClaudeSettings`, `writeLiveSnapshot`, `readLiveSettings`) backed by
  `~/.claude/settings.json`;
* `provider-storage` — CRUD over `ProvidersConfig` (`loadProviders`,
  `saveProviders`, `addProvider`, `updateProvider`, `removeProvider`,
  `backfillCurrentProvider`, `switchProvider`) backed by `~/.cc/providers.json`;
* the shared atomic-write primitive (temp file + rename, with best-effort
  cleanup on failure).

Modelling conventions:

* JSON values are the inductive `Json`; `ClaudeSettings` is an opaque `Json`
  snapshot, exactly as the code treats it (wholesale copy, never merged).
* The interesting effects are captured by a `World`: the state of each backing
  file (`absent` / `invalid` (unparsable) / `ok v`), a flag for the config
  directory, and a trace of file writes (most recent last) so that write
  ordering is provable.
* `Date.now()` and `Math.random().toString(36).slice(2, 9)` are oracle inputs,
  passed explicitly to the functions that read them.
* Store-level operations model the happy path of the atomic-write primitive
  (a completed write); the primitive's own failure behaviour is modelled
  separately at the file-system level (`atomicWrite` below), with injected
  faults for the write, rename and unlink steps.
-/

namespace CC

/-- A JSON value, as produced by `JSON.parse`. -/
inductive Json where
  | null
  | bool (b : Bool)
  | num (n : Int)
  | str (s : String)
  | arr (elems : List Json)
  | obj (fields : List (String × Json))

/-- The live settings value (`ClaudeSettings` in `types.ts`): an open-ended
JSON object, treated by the code as an opaque snapshot. -/
abbrev ClaudeSettings := Json

/-- `Provider.category`: `"subscription" | "api"`. -/
inductive Category where
  | subscription
  | api
deriving DecidableEq, Repr

/-- The `Provider` record of `types.ts`. Optional TS fields are `Option`s. -/
structure Provider where
  id : String
  name : String
  settingsConfig : ClaudeSettings
  description : Option String
  category : Option Category
  createdAt : Option Nat
  icon : Option String
  iconColor : Option String

/-- The root persisted object `ProvidersConfig` of `types.ts`. -/
structure ProvidersConfig where
  providers : List Provider
  currentProviderId : Option String

/-- Errors surfaced by the storage layer. -/
inductive Err where
  | notFound (id : String)
  | parseError
deriving DecidableEq, Repr

/-- The state of one backing file: missing, present but not valid JSON of the
expected type, or present with a parsed value. -/
inductive FileState (α : Type) where
  | absent
  | invalid
  | ok (v : α)

/-- One completed write to one of the two stores (used to record write order). -/
inductive WriteEvent where
  | providersWrite (c : ProvidersConfig)
  | liveWrite (s : ClaudeSettings)

/-- The mutable world the storage layer acts on. -/
structure World where
  liveFile : FileState ClaudeSettings
  providersFile : FileState ProvidersConfig
  configDirExists : Bool
  trace : List WriteEvent

/-! ## Live settings store (`claude-settings`) -/

/-- `loadClaudeSettings`: `null` when the file is missing, `JSON.parse` of the
contents otherwise (a parse failure propagates). -/
def loadClaudeSettings (w : World) : Except Err (Option ClaudeSettings) :=
  match w.liveFile with
  | .absent => .ok none
  | .invalid => .error .parseError
  | .ok s => .ok (some s)

/-- `saveClaudeSettings`: serialize and atomically write the live file
(happy path of the primitive: the file now holds `s`). -/
def saveClaudeSettings (s : ClaudeSettings) (w : World) : World :=
  { w with liveFile := .ok s, trace := w.trace ++ [.liveWrite s] }

/-- `writeLiveSnapshot`: write a provider's `settingsConfig` to the live file. -/
def writeLiveSnapshot (s : ClaudeSettings) (w : World) : World :=
  saveClaudeSettings s w

/-- `readLiveSettings`: alias of `loadClaudeSettings`, used for backfill. -/
def readLiveSettings (w : World) : Except Err (Option ClaudeSettings) :=
  loadClaudeSettings w

/-! ## Provider store (`provider-storage`) -/

/-- `generateId`: `` `${Date.now()}-${Math.random().toString(36).slice(2, 9)}` ``.
`now` is the value read from `Date.now()`, `rand` the sliced random string. -/
def generateId (now : Nat) (rand : String) : String :=
  Nat.repr now ++ "-" ++ rand

/-- `ensureConfigDir`: `mkdir -p` the config directory. -/
def ensureConfigDir (w : World) : World :=
  { w with configDirExists := true }

/-- `loadProviders`: ensure the directory, return `{providers: []}` when the
file is missing, otherwise `JSON.parse` the contents (parse failure
propagates). The backing file itself is not created. -/
def loadProviders (w : World) : Except Err ProvidersConfig × World :=
  let w := ensureConfigDir w
  match w.providersFile with
  | .absent => (.ok ⟨[], none⟩, w)
  | .invalid => (.error .parseError, w)
  | .ok c => (.ok c, w)

/-- `saveProviders`: ensure the directory and atomically write the store file
(happy path of the primitive: the file now holds `c`). -/
def saveProviders (c : ProvidersConfig) (w : World) : World :=
  let w := ensureConfigDir w
  { w with providersFile := .ok c, trace := w.trace ++ [.providersWrite c] }

/-- `Omit<Provider, "id" | "createdAt">`: the caller-supplied fields of
`addProvider`. -/
structure ProviderInput where
  name : String
  settingsConfig : ClaudeSettings
  description : Option String
  category : Option Category
  icon : Option String
  iconColor : Option String

/-- `addProvider`: load, append `{...provider, id: generateId(), createdAt:
Date.now()}`, save, return the stored record. `idNow`/`rand` are the oracle
reads made by `generateId`, `createdNow` the `Date.now()` read for
`createdAt`. -/
def addProvider (input : ProviderInput) (idNow : Nat) (rand : String) (createdNow : Nat)
    (w : World) : Except Err Provider × World :=
  match loadProviders w with
  | (.error e, w) => (.error e, w)
  | (.ok config, w) =>
    let newProvider : Provider :=
      { id := generateId idNow rand
        name := input.name
        settingsConfig := input.settingsConfig
        description := input.description
        category := input.category
        createdAt := some createdNow
        icon := input.icon
        iconColor := input.iconColor }
    let config := { config with providers := config.providers ++ [newProvider] }
    (.ok newProvider, saveProviders config w)

/-- The update argument of `updateProvider`: every field independently
optional (`undefined` = omitted). The TS type also admits `createdAt`, which
the implementation ignores. -/
structure ProviderUpdate where
  name : Option String := none
  settingsConfig : Option ClaudeSettings := none
  description : Option String := none
  category : Option Category := none
  createdAt : Option Nat := none
  icon : Option String := none
  iconColor : Option String := none

/-- The JS nullish-coalescing operator `a ?? b` on two optional values. -/
def coalesce {α : Type} (a b : Option α) : Option α :=
  match a with
  | some v => some v
  | none => b

/-- The replacement record built by `updateProvider`:
field-by-field `updates.x ?? existingProvider.x`, with `id` and `createdAt`
taken from the existing record unconditionally. -/
def mergeProvider (existing : Provider) (u : ProviderUpdate) : Provider :=
  { id := existing.id
    name := u.name.getD existing.name
    settingsConfig := u.settingsConfig.getD existing.settingsConfig
    description := coalesce u.description existing.description
    category := coalesce u.category existing.category
    createdAt := existing.createdAt
    icon := coalesce u.icon existing.icon
    iconColor := coalesce u.iconColor existing.iconColor }

/-- Replace the first element satisfying `q` by its image under `f`
(the effect of JS `findIndex` / `find` followed by an in-place assignment). -/
def replaceFirst {α : Type} (q : α → Bool) (f : α → α) : List α → List α
  | [] => []
  | a :: l => if q a then f a :: l else a :: replaceFirst q f l

/-- `updateProvider`: `findIndex` by id (`-1` ↔ no element satisfies the
predicate); on a hit, overwrite that slot with the merged record and save. -/
def updateProvider (id : String) (u : ProviderUpdate) (w : World) :
    Except Err Bool × World :=
  match loadProviders w with
  | (.error e, w) => (.error e, w)
  | (.ok config, w) =>
    if config.providers.any (fun p => p.id == id) then
      let newList :=
        replaceFirst (fun p => p.id == id) (fun p => mergeProvider p u) config.providers
      (.ok true, saveProviders { config with providers := newList } w)
    else
      (.ok false, w)

/-- `removeProvider`: filter out the id; if the list shrank, clear
`currentProviderId` when it pointed at the removed id, save, return `true`;
otherwise return `false` without saving. -/
def removeProvider (id : String) (w : World) : Except Err Bool × World :=
  match loadProviders w with
  | (.error e, w) => (.error e, w)
  | (.ok config, w) =>
    let remaining := config.providers.filter (fun p => !(p.id == id))
    if remaining.length < config.providers.length then
      let newCurrent : Option String :=
        match config.currentProviderId with
        | some cid => if cid == id then none else some cid
        | none => none
      (.ok true, saveProviders ⟨remaining, newCurrent⟩ w)
    else
      (.ok false, w)

/-- `backfillCurrentProvider`: bail out when `currentProviderId` is JS-falsy
(absent or `""`), when it matches no provider, or when the live file is
absent; otherwise overwrite the current provider's `settingsConfig` in memory
with the live contents. A live-file parse failure propagates. -/
def backfillCurrentProvider (config : ProvidersConfig) (w : World) :
    Except Err ProvidersConfig × World :=
  match config.currentProviderId with
  | none => (.ok config, w)
  | some cid =>
    if cid == "" then (.ok config, w)
    else if config.providers.any (fun p => p.id == cid) then
      match readLiveSettings w with
      | .error e => (.error e, w)
      | .ok none => (.ok config, w)
      | .ok (some live) =>
        let newList :=
          replaceFirst (fun p => p.id == cid)
            (fun p => { p with settingsConfig := live }) config.providers
        (.ok { config with providers := newList }, w)
    else (.ok config, w)

/-- The guard `config.currentProviderId && config.currentProviderId !== id`
of `switchProvider` (JS truthiness: `undefined` and `""` are falsy). -/
def backfillCondition (config : ProvidersConfig) (id : String) : Bool :=
  match config.currentProviderId with
  | none => false
  | some cid => !(cid == "") && !(cid == id)

/-- `switchProvider`: load; `NotFoundError` when the id matches no provider;
backfill when a different provider is current; set `currentProviderId`; save
the whole config; write the target's `settingsConfig` to the live file;
return the target. -/
def switchProvider (id : String) (w : World) : Except Err Provider × World :=
  match loadProviders w with
  | (.error e, w) => (.error e, w)
  | (.ok config, w) =>
    match config.providers.find? (fun p => p.id == id) with
    | none => (.error (.notFound id), w)
    | some target =>
      match (if backfillCondition config id
             then backfillCurrentProvider config w
             else (.ok config, w)) with
      | (.error e, w) => (.error e, w)
      | (.ok config, w) =>
        let config := { config with currentProviderId := some id }
        let w := saveProviders config w
        let w := writeLiveSnapshot target.settingsConfig w
        (.ok target, w)

/-! ## Raw (untyped) view of the two loaders

`JSON.parse` returns an arbitrary JSON value which the code returns as-is,
without any shape validation; the typed layer above is the behaviour on
well-shaped files.  To reason about ill-shaped files we model the loaders
once more at the JSON level. -/

/-- The raw state of a backing file: missing, present but not valid JSON,
or present with the JSON value its text parses to. -/
inductive RawFile where
  | absent
  | malformed
  | valid (j : Json)

/-- `loadProviders` at the JSON level: `{providers: []}` when the file is
missing, otherwise the result of `JSON.parse` returned as-is. -/
def loadProvidersRaw : RawFile → Except Err Json
  | .absent => .ok (Json.obj [("providers", Json.arr [])])
  | .malformed => .error .parseError
  | .valid j => .ok j

/-- `loadClaudeSettings` at the JSON level: `null` when the file is missing,
otherwise the result of `JSON.parse` returned as-is. -/
def loadClaudeSettingsRaw : RawFile → Except Err (Option Json)
  | .absent => .ok none
  | .malformed => .error .parseError
  | .valid j => .ok (some j)

/-- Whether a JSON value is an object. -/
def Json.isObj : Json → Bool
  | .obj _ => true
  | _ => false

/-- Whether a JSON value is an array. -/
def Json.isArr : Json → Bool
  | .arr _ => true
  | _ => false

/-- The documented root shape of the provider store file:
an object whose `providers` field is an array. -/
def isProvidersConfigShape (j : Json) : Bool :=
  match j with
  | .obj fields =>
    match fields.lookup "providers" with
    | some v => v.isArr
    | none => false
  | _ => false

/-! ## The atomic-write primitive, at the file-system level

Both modules contain the same primitive (differing only in the temp-name
stem): build `tmpPath = join(dirname(path), stem + Date.now())`, write the
data to `tmpPath`, rename `tmpPath` onto `path`; on failure of either step,
best-effort-unlink `tmpPath` (errors swallowed) and re-throw the original
error. -/

/-- A file path split as `dirname`/`basename`; `join` pairs them back up. -/
structure FsPath where
  dir : String
  base : String
deriving DecidableEq, Repr

/-- A directory's worth of files: contents by path. -/
abbrev FS := FsPath → Option String

/-- Overwrite (or create) the file at `p`. -/
def FS.write (fs : FS) (p : FsPath) (d : String) : FS :=
  fun q => if q = p then some d else fs q

/-- Delete the file at `p`. -/
def FS.removeFile (fs : FS) (p : FsPath) : FS :=
  fun q => if q = p then none else fs q

/-- `existsSync`. -/
def FS.existsAt (fs : FS) (p : FsPath) : Bool :=
  (fs p).isSome

/-- Fault-injection environment for one `atomicWrite` call: the `Date.now()`
reading and which of the three filesystem steps fail.  When `writeFile`
fails, `leftover` is the partial temp file it may have left behind. -/
structure AtomicEnv where
  now : Nat
  writeFails : Bool
  leftover : Option String
  renameFails : Bool
  unlinkFails : Bool

/-- Which step of the primitive threw. -/
inductive WriteErr where
  | writeFailed
  | renameFailed
deriving DecidableEq, Repr

/-- The temp path chosen by `atomicWrite`:
`join(dirname(path), stem + Date.now())`. -/
def tmpPathFor (stem : String) (path : FsPath) (now : Nat) : FsPath :=
  ⟨path.dir, stem ++ Nat.repr now⟩

/-- The `catch` block: `if (existsSync(tmpPath)) unlink(tmpPath)`, with any
unlink error swallowed. -/
def cleanupTmp (env : AtomicEnv) (fs : FS) (tmp : FsPath) : FS :=
  if fs.existsAt tmp && !env.unlinkFails then fs.removeFile tmp else fs

/-- The atomic-write primitive.  `stem` is `".providers.json.tmp."` in
`provider-storage` and `".settings.json.tmp."` in `claude-settings`. -/
def atomicWrite (stem : String) (path : FsPath) (data : String) (env : AtomicEnv)
    (fs : FS) : Except WriteErr Unit × FS :=
  let tmp := tmpPathFor stem path env.now
  if env.writeFails then
    let fs₁ := match env.leftover with
      | none => fs
      | some d => fs.write tmp d
    (.error .writeFailed, cleanupTmp env fs₁ tmp)
  else
    let fs₁ := fs.write tmp data
    if env.renameFails then
      (.error .renameFailed, cleanupTmp env fs₁ tmp)
    else
      (.ok (), (fs₁.removeFile tmp).write path data)

/-- Temp-name stem of the `provider-storage` copy of the primitive. -/
def providersTmpStem : String := ".providers.json.tmp."

/-- Temp-name stem of the `claude-settings` copy of the primitive. -/
def settingsTmpStem : String := ".settings.json.tmp."

/-! ## Demonstration values (used by witnesses and counterexamples) -/

/-- A concrete live-settings snapshot `{env: {TOKEN: "old"}}`. -/
def demoSettings : ClaudeSettings :=
  Json.obj [("env", Json.obj [("TOKEN", Json.str "old")])]

/-- A concrete live-settings snapshot with an out-of-band user edit:
`{env: {TOKEN: "old", EXTRA: "user-edit"}}`. -/
def demoEdited : ClaudeSettings :=
  Json.obj [("env", Json.obj [("TOKEN", Json.str "old"), ("EXTRA", Json.str "user-edit")])]

/-- A second provider's snapshot `{env: {TOKEN: "new"}}`. -/
def demoSettingsB : ClaudeSettings :=
  Json.obj [("env", Json.obj [("TOKEN", Json.str "new")])]

/-- Stored provider `P1`. -/
def demoP1 : Provider :=
  ⟨"P1", "one", demoSettings, none, none, some 1, none, none⟩

/-- Stored provider `P2`. -/
def demoP2 : Provider :=
  ⟨"P2", "two", demoSettingsB, none, some Category.api, some 2, none, none⟩

/-- Caller input used in demonstrations. -/
def demoInput : ProviderInput :=
  ⟨"work", demoSettings, none, some Category.api, none, none⟩

/-- Two `add` calls in immediate succession, both observing
`Date.now() = 1700000000000` and the same random slice `"4fzyo82"`, starting
from an empty store; returns the pair of generated ids. -/
def twoRapidAddIds : Option (String × String) :=
  match addProvider demoInput 1700000000000 "4fzyo82" 1700000000000
      ⟨FileState.absent, FileState.absent, false, []⟩ with
  | (.ok p₁, w₁) =>
    match addProvider demoInput 1700000000000 "4fzyo82" 1700000000000 w₁ with
    | (.ok p₂, _) => some (p₁.id, p₂.id)
    | _ => none
  | _ => none

/-- A directory holding one file: the provider store with contents `"old"`. -/
def demoFS : FS :=
  fun q => if q = ⟨"/home/u/.cc", "providers.json"⟩ then some "old" else none

/-- Numeric value of a decimal digit character. -/
def digitVal (c : Char) : Nat := c.toNat - 48

/-- The number denoted by a most-significant-first decimal digit string. -/
def digitsVal (l : List Char) : Nat := l.foldl (fun a c => a * 10 + digitVal c) 0

/-! ## C8 — first-run and malformed-file behaviour of `loadProviders` -/

/-- **C8.** When the provider store's backing file is absent, `load()` ensures
the containing directory exists, returns `{providers: []}` without throwing,
and does not create the backing file itself (the first `save` does); when the
backing file exists but contains invalid JSON, `load()` fails with a
ParseError rather than treating the file as absent. -/
theorem loadProviders_first_run_and_parse_error (w : World) :
    (w.providersFile = FileState.absent →
      (loadProviders w).1 = .ok ⟨[], none⟩ ∧
      ((loadProviders w).2).configDirExists = true ∧
      ((loadProviders w).2).providersFile = FileState.absent ∧
      ((loadProviders w).2).liveFile = w.liveFile ∧
      ((loadProviders w).2).trace = w.trace ∧
      (saveProviders ⟨[], none⟩ w).providersFile = FileState.ok ⟨[], none⟩) ∧
    (w.providersFile = FileState.invalid →
      (loadProviders w).1 = .error Err.parseError) := by
  constructor
  · intro h
    simp [loadProviders, ensureConfigDir, saveProviders, h]
  · intro h
    simp [loadProviders, ensureConfigDir, h]

/-- Witness for C8: both branches evaluated on concrete worlds. -/
theorem loadProviders_first_run_and_parse_error_witness :
    ((loadProviders ⟨FileState.absent, FileState.absent, false, []⟩).1 = .ok ⟨[], none⟩ ∧
      ((loadProviders ⟨FileState.absent, FileState.absent, false, []⟩).2).configDirExists = true ∧
      ((loadProviders ⟨FileState.absent, FileState.absent, false, []⟩).2).providersFile
        = FileState.absent ∧
      ((loadProviders ⟨FileState.absent, FileState.absent, false, []⟩).2).liveFile
        = FileState.absent ∧
      ((loadProviders ⟨FileState.absent, FileState.absent, false, []⟩).2).trace = [] ∧
      (saveProviders ⟨[], none⟩ ⟨FileState.absent, FileState.absent, false, []⟩).providersFile
        = FileState.ok ⟨[], none⟩) ∧
    (loadProviders ⟨FileState.absent, FileState.invalid, false, []⟩).1
      = .error Err.parseError :=
  ⟨(loadProviders_first_run_and_parse_error ⟨FileState.absent, FileState.absent, false, []⟩).1 rfl,
   (loadProviders_first_run_and_parse_error ⟨FileState.absent, FileState.invalid, false, []⟩).2 rfl⟩

/-! ## C10 — the loaders perform no shape validation -/

/-- **C10.** Neither store's `load()` validates the shape of the parsed data:
for an existing backing file containing valid JSON that is not of the
documented shape (here: `null`, an object whose `providers` field is the
number `3`, and a bare string), `load()` succeeds and returns the value
as-is instead of raising a ParseError. -/
theorem load_returns_ill_shaped_json_as_is :
    loadProvidersRaw (.valid .null) = .ok .null ∧
    isProvidersConfigShape .null = false ∧
    loadProvidersRaw (.valid (.obj [("providers", .num 3)]))
      = .ok (.obj [("providers", .num 3)]) ∧
    isProvidersConfigShape (.obj [("providers", .num 3)]) = false ∧
    loadClaudeSettingsRaw (.valid (.str "not an object"))
      = .ok (some (.str "not an object")) ∧
    (Json.str "not an object").isObj = false :=
  ⟨rfl, rfl, rfl, rfl, rfl, rfl⟩

/-! ## C2 — switching to a nonexistent id fails without mutating state -/

/-- **C2.** For every stored configuration and every id that matches no stored
provider, `switchTo(id)` fails with a NotFoundError and mutates no state: the
persisted `ProvidersConfig` and the live settings file are both left exactly
as they were before the call. -/
theorem switchProvider_notFound_no_mutation (w : World) (c : ProvidersConfig) (id : String)
    (hw : w.providersFile = FileState.ok c)
    (hfind : c.providers.find? (fun p => p.id == id) = none) :
    (switchProvider id w).1 = .error (.notFound id) ∧
    ((switchProvider id w).2).providersFile = w.providersFile ∧
    ((switchProvider id w).2).liveFile = w.liveFile ∧
    ((switchProvider id w).2).trace = w.trace := by
  simp [switchProvider, loadProviders, ensureConfigDir, hw, hfind]

/-- Witness for C2: switching to `"ghost"` in a one-provider store. -/
theorem switchProvider_notFound_no_mutation_witness :
    (switchProvider "ghost"
      ⟨FileState.ok demoSettings, FileState.ok ⟨[demoP1], some "P1"⟩, true, []⟩).1
      = .error (.notFound "ghost") ∧
    ((switchProvider "ghost"
      ⟨FileState.ok demoSettings, FileState.ok ⟨[demoP1], some "P1"⟩, true, []⟩).2).providersFile
      = FileState.ok ⟨[demoP1], some "P1"⟩ ∧
    ((switchProvider "ghost"
      ⟨FileState.ok demoSettings, FileState.ok ⟨[demoP1], some "P1"⟩, true, []⟩).2).liveFile
      = FileState.ok demoSettings ∧
    ((switchProvider "ghost"
      ⟨FileState.ok demoSettings, FileState.ok ⟨[demoP1], some "P1"⟩, true, []⟩).2).trace
      = [] :=
  switchProvider_notFound_no_mutation
    ⟨FileState.ok demoSettings, FileState.ok ⟨[demoP1], some "P1"⟩, true, []⟩
    ⟨[demoP1], some "P1"⟩ "ghost" rfl rfl

/-! ## C9 — re-switching to the current provider discards live edits -/

/-- **C9.** For every stored configuration in which `currentProviderId`
already equals the target id, `switchTo(target)` performs no backfill
(the stored providers are written back unchanged) and overwrites the live
settings file with the target's stored `settingsConfig`, so out-of-band
edits `L` to the live file are discarded rather than captured. -/
theorem switchProvider_same_target_discards_live_edits (w : World) (c : ProvidersConfig)
    (tid : String) (target : Provider) (L : ClaudeSettings)
    (hw : w.providersFile = FileState.ok c)
    (hcur : c.currentProviderId = some tid)
    (hfind : c.providers.find? (fun p => p.id == tid) = some target)
    (_hlive : w.liveFile = FileState.ok L) :
    (switchProvider tid w).1 = .ok target ∧
    ((switchProvider tid w).2).providersFile = FileState.ok ⟨c.providers, some tid⟩ ∧
    ((switchProvider tid w).2).liveFile = FileState.ok target.settingsConfig ∧
    ((switchProvider tid w).2).trace =
      w.trace ++ [.providersWrite ⟨c.providers, some tid⟩, .liveWrite target.settingsConfig] := by
  have hcond : backfillCondition c tid = false := by
    simp [backfillCondition, hcur]
  simp [switchProvider, loadProviders, ensureConfigDir, hw, hfind, hcond,
    saveProviders, writeLiveSnapshot, saveClaudeSettings]

/-- Witness for C9: the live file holds an edited snapshot, the current
provider is also the target; the edit is discarded. -/
theorem switchProvider_same_target_discards_live_edits_witness :
    (switchProvider "P1"
      ⟨FileState.ok demoEdited, FileState.ok ⟨[demoP1, demoP2], some "P1"⟩, true, []⟩).1
      = .ok demoP1 ∧
    ((switchProvider "P1"
      ⟨FileState.ok demoEdited, FileState.ok ⟨[demoP1, demoP2], some "P1"⟩, true, []⟩).2).providersFile
      = FileState.ok ⟨[demoP1, demoP2], some "P1"⟩ ∧
    ((switchProvider "P1"
      ⟨FileState.ok demoEdited, FileState.ok ⟨[demoP1, demoP2], some "P1"⟩, true, []⟩).2).liveFile
      = FileState.ok demoP1.settingsConfig ∧
    ((switchProvider "P1"
      ⟨FileState.ok demoEdited, FileState.ok ⟨[demoP1, demoP2], some "P1"⟩, true, []⟩).2).trace
      = [] ++ [.providersWrite ⟨[demoP1, demoP2], some "P1"⟩,
               .liveWrite demoP1.settingsConfig] :=
  switchProvider_same_target_discards_live_edits
    ⟨FileState.ok demoEdited, FileState.ok ⟨[demoP1, demoP2], some "P1"⟩, true, []⟩
    ⟨[demoP1, demoP2], some "P1"⟩ "P1" demoP1 demoEdited rfl rfl (by simp [demoP1, demoP2]) rfl

/-! ## List helper lemmas -/

/-- Keeping only the elements that fail `q` shrinks the list exactly when some
element satisfies `q` (the `length`-comparison test of `removeProvider`). -/
theorem filter_not_length_lt_iff_any {α : Type} (q : α → Bool) (l : List α) :
    (l.filter (fun a => !(q a))).length < l.length ↔ l.any q = true := by
  induction l with
  | nil => simp
  | cons x l ih =>
    by_cases hx : q x = true
    · simp only [List.filter_cons, hx, Bool.not_true, List.length_cons, List.any_cons,
        Bool.true_or, iff_true]
      exact Nat.lt_succ_of_le (List.length_filter_le _ l)
    · simp only [List.filter_cons, Bool.not_eq_true] at hx ⊢
      simp [hx, ih]

/-- After filtering out the elements that satisfy `q`, none remains. -/
theorem any_filter_not {α : Type} (q : α → Bool) (l : List α) :
    (l.filter (fun a => !(q a))).any q = false := by
  induction l with
  | nil => rfl
  | cons x l ih =>
    by_cases hx : q x = true
    · simp [List.filter_cons, hx, ih]
    · simp only [Bool.not_eq_true] at hx
      simp [List.filter_cons, hx, ih]

/-- `replaceFirst` on a list decomposed around its first match rewrites
exactly that slot. -/
theorem replaceFirst_of_decomp {α : Type} (q : α → Bool) (f : α → α)
    (pre : List α) (a : α) (post : List α)
    (hpre : ∀ b ∈ pre, q b = false) (ha : q a = true) :
    replaceFirst q f (pre ++ a :: post) = pre ++ f a :: post := by
  induction pre with
  | nil => simp [replaceFirst, ha]
  | cons x pre ih =>
    have hx : q x = false := hpre x (List.mem_cons_self x pre)
    simp only [List.cons_append, replaceFirst, hx, Bool.false_eq_true, if_false,
      List.cons.injEq, true_and]
    exact ih fun b hb => hpre b (List.mem_cons_of_mem x hb)

/-- A list decomposed around a match satisfies `any`. -/
theorem any_of_decomp {α : Type} (q : α → Bool) (pre : List α) (a : α) (post : List α)
    (ha : q a = true) : (pre ++ a :: post).any q = true := by
  simp [List.any_append, ha]

/-- `find?` after `replaceFirst` returns the image of the first match,
provided `f` preserves the predicate. -/
theorem find?_replaceFirst_self {α : Type} (q : α → Bool) (f : α → α) (l : List α) (a : α)
    (h : l.find? q = some a) (hqf : ∀ x, q x = true → q (f x) = true) :
    (replaceFirst q f l).find? q = some (f a) := by
  induction l with
  | nil => simp [List.find?] at h
  | cons x l ih =>
    by_cases hx : q x = true
    · rw [List.find?_cons_of_pos _ hx] at h
      obtain rfl : x = a := by injection h
      have hrw : replaceFirst q f (x :: l) = f x :: l := by
        simp [replaceFirst, hx]
      rw [hrw, List.find?_cons_of_pos _ (hqf x hx)]
    · have hx' : ¬(q x = true) := hx
      rw [List.find?_cons_of_neg _ hx'] at h
      simp only [replaceFirst, hx, Bool.false_eq_true, if_false]
      rw [List.find?_cons_of_neg _ hx']
      exact ih h

/-! ## C4 — `removeProvider` -/

/-- **C4.** `remove(id)` returns whether an entry was removed; when the
removed entry was the current provider, `currentProviderId` is cleared in the
persisted config; the configuration is persisted exactly once and only when
something was removed, so a second `remove(id)` returns `false` and leaves the
stored configuration (and the whole world) unchanged. -/
theorem removeProvider_spec (w : World) (c : ProvidersConfig) (id : String)
    (hw : w.providersFile = FileState.ok c) :
    (removeProvider id w).1 = .ok (c.providers.any (fun p => p.id == id)) ∧
    (c.providers.any (fun p => p.id == id) = true →
      ((removeProvider id w).2).providersFile =
        FileState.ok ⟨c.providers.filter (fun p => !(p.id == id)),
          if c.currentProviderId = some id then none else c.currentProviderId⟩ ∧
      ((removeProvider id w).2).trace =
        w.trace ++ [.providersWrite ⟨c.providers.filter (fun p => !(p.id == id)),
          if c.currentProviderId = some id then none else c.currentProviderId⟩] ∧
      removeProvider id ((removeProvider id w).2) = (.ok false, (removeProvider id w).2)) ∧
    (c.providers.any (fun p => p.id == id) = false →
      ((removeProvider id w).2).providersFile = w.providersFile ∧
      ((removeProvider id w).2).liveFile = w.liveFile ∧
      ((removeProvider id w).2).trace = w.trace) := by
  obtain ⟨provs, cur⟩ := c
  refine ⟨?_, ?_, ?_⟩
  · by_cases hany : provs.any (fun p => p.id == id) = true
    · have hlt := (filter_not_length_lt_iff_any (fun p => p.id == id) provs).mpr hany
      simp [removeProvider, loadProviders, ensureConfigDir, hw, hlt, hany]
    · have hany' : provs.any (fun p => p.id == id) = false :=
        Bool.not_eq_true _ ▸ (by simpa using hany)
      have hlt : ¬ (provs.filter (fun p => !(p.id == id))).length < provs.length := by
        rw [filter_not_length_lt_iff_any]
        simp [hany']
      simp [removeProvider, loadProviders, ensureConfigDir, hw, hlt, hany']
  · intro hany
    have hlt := (filter_not_length_lt_iff_any (fun p => p.id == id) provs).mpr hany
    have hnone := any_filter_not (fun p => p.id == id) provs
    have hlt2 : ¬ ((provs.filter (fun p => !(p.id == id))).filter
        (fun p => !(p.id == id))).length
        < (provs.filter (fun p => !(p.id == id))).length := by
      rw [filter_not_length_lt_iff_any]
      simp [hnone]
    cases cur with
    | none =>
      refine ⟨?_, ?_, ?_⟩ <;>
        simp [removeProvider, loadProviders, ensureConfigDir, hw, hlt, saveProviders, hlt2]
    | some cid =>
      by_cases hcid : cid = id
      · subst hcid
        refine ⟨?_, ?_, ?_⟩ <;>
          simp [removeProvider, loadProviders, ensureConfigDir, hw, hlt, saveProviders, hlt2]
      · have hbeq : (cid == id) = false := beq_eq_false_iff_ne.mpr hcid
        refine ⟨?_, ?_, ?_⟩ <;>
          simp [removeProvider, loadProviders, ensureConfigDir, hw, hlt, saveProviders,
            hlt2, hbeq, hcid]
  · intro hany
    have hlt : ¬ (provs.filter (fun p => !(p.id == id))).length < provs.length := by
      rw [filter_not_length_lt_iff_any]
      simp [hany]
    refine ⟨?_, ?_, ?_⟩ <;>
      simp [removeProvider, loadProviders, ensureConfigDir, hw, hlt]

/-- Witness for C4: removing the current provider `"P1"` from a two-provider
store clears the pointer; removing it again is a no-op returning `false`. -/
theorem removeProvider_spec_witness :
    (removeProvider "P1"
      ⟨FileState.ok demoSettings, FileState.ok ⟨[demoP1, demoP2], some "P1"⟩, true, []⟩).1
      = .ok true ∧
    ((removeProvider "P1"
      ⟨FileState.ok demoSettings, FileState.ok ⟨[demoP1, demoP2], some "P1"⟩, true, []⟩).2).providersFile
      = FileState.ok ⟨[demoP2], none⟩ ∧
    removeProvider "P1"
      ((removeProvider "P1"
        ⟨FileState.ok demoSettings, FileState.ok ⟨[demoP1, demoP2], some "P1"⟩, true, []⟩).2)
      = (.ok false,
         (removeProvider "P1"
           ⟨FileState.ok demoSettings, FileState.ok ⟨[demoP1, demoP2], some "P1"⟩, true, []⟩).2) := by
  have h := removeProvider_spec
    ⟨FileState.ok demoSettings, FileState.ok ⟨[demoP1, demoP2], some "P1"⟩, true, []⟩
    ⟨[demoP1, demoP2], some "P1"⟩ "P1" rfl
  have hany : ([demoP1, demoP2].any (fun p => p.id == "P1")) = true := by
    simp [demoP1, demoP2]
  refine ⟨?_, ?_, (h.2.1 hany).2.2⟩
  · rw [h.1, hany]
  · have := (h.2.1 hany).1
    simpa [demoP1, demoP2] using this

/-! ## C5 — `updateProvider` -/

/-- Field-level behaviour of the record built by `updateProvider`: `id` and
`createdAt` are never overwritten; each mutable field takes the update's value
when present and keeps the existing value when omitted. -/
theorem mergeProvider_fields (P : Provider) (u : ProviderUpdate) :
    (mergeProvider P u).id = P.id ∧
    (mergeProvider P u).createdAt = P.createdAt ∧
    (u.name = none → (mergeProvider P u).name = P.name) ∧
    (∀ v, u.name = some v → (mergeProvider P u).name = v) ∧
    (u.settingsConfig = none → (mergeProvider P u).settingsConfig = P.settingsConfig) ∧
    (∀ v, u.settingsConfig = some v → (mergeProvider P u).settingsConfig = v) ∧
    (u.description = none → (mergeProvider P u).description = P.description) ∧
    (∀ v, u.description = some v → (mergeProvider P u).description = some v) ∧
    (u.category = none → (mergeProvider P u).category = P.category) ∧
    (∀ v, u.category = some v → (mergeProvider P u).category = some v) ∧
    (u.icon = none → (mergeProvider P u).icon = P.icon) ∧
    (∀ v, u.icon = some v → (mergeProvider P u).icon = some v) ∧
    (u.iconColor = none → (mergeProvider P u).iconColor = P.iconColor) ∧
    (∀ v, u.iconColor = some v → (mergeProvider P u).iconColor = some v) := by
  refine ⟨rfl, rfl, ?_, ?_, ?_, ?_, ?_, ?_, ?_, ?_, ?_, ?_, ?_, ?_⟩ <;>
    first
      | (intro h; simp [mergeProvider, coalesce, h])
      | (intro v h; simp [mergeProvider, coalesce, h])

/-- **C5.** For every stored provider `P` (at any position) and every partial
update, `update(id, fields)` replaces only the mutable fields present in the
update, keeps every omitted field, never overwrites `id` or `createdAt`,
persists exactly once and returns `true`; and for every id matching no stored
provider, it returns `false` and makes no change. -/
theorem updateProvider_spec (w : World) (c : ProvidersConfig) (id : String) (u : ProviderUpdate)
    (hw : w.providersFile = FileState.ok c) :
    (∀ pre P post, c.providers = pre ++ P :: post →
      (∀ b ∈ pre, (b.id == id) = false) → (P.id == id) = true →
      (updateProvider id u w).1 = .ok true ∧
      ((updateProvider id u w).2).providersFile =
        FileState.ok ⟨pre ++ mergeProvider P u :: post, c.currentProviderId⟩ ∧
      ((updateProvider id u w).2).trace =
        w.trace ++ [.providersWrite ⟨pre ++ mergeProvider P u :: post, c.currentProviderId⟩] ∧
      ((updateProvider id u w).2).liveFile = w.liveFile ∧
      (mergeProvider P u).id = P.id ∧
      (mergeProvider P u).createdAt = P.createdAt ∧
      (u.name = none → (mergeProvider P u).name = P.name) ∧
      (∀ v, u.name = some v → (mergeProvider P u).name = v) ∧
      (u.settingsConfig = none → (mergeProvider P u).settingsConfig = P.settingsConfig) ∧
      (∀ v, u.settingsConfig = some v → (mergeProvider P u).settingsConfig = v) ∧
      (u.description = none → (mergeProvider P u).description = P.description) ∧
      (∀ v, u.description = some v → (mergeProvider P u).description = some v) ∧
      (u.category = none → (mergeProvider P u).category = P.category) ∧
      (∀ v, u.category = some v → (mergeProvider P u).category = some v) ∧
      (u.icon = none → (mergeProvider P u).icon = P.icon) ∧
      (∀ v, u.icon = some v → (mergeProvider P u).icon = some v) ∧
      (u.iconColor = none → (mergeProvider P u).iconColor = P.iconColor) ∧
      (∀ v, u.iconColor = some v → (mergeProvider P u).iconColor = some v)) ∧
    (c.providers.any (fun p => p.id == id) = false →
      (updateProvider id u w).1 = .ok false ∧
      ((updateProvider id u w).2).providersFile = w.providersFile ∧
      ((updateProvider id u w).2).liveFile = w.liveFile ∧
      ((updateProvider id u w).2).trace = w.trace) := by
  constructor
  · intro pre P post hdec hpre hP
    have hany : c.providers.any (fun p => p.id == id) = true := by
      rw [hdec]; exact any_of_decomp _ pre P post hP
    have hrep : replaceFirst (fun p => p.id == id) (fun p => mergeProvider p u) c.providers
        = pre ++ mergeProvider P u :: post := by
      rw [hdec]; exact replaceFirst_of_decomp _ _ pre P post hpre hP
    refine ⟨?_, ?_, ?_, ?_, mergeProvider_fields P u |>.1, mergeProvider_fields P u |>.2.1,
      (mergeProvider_fields P u).2.2.1, (mergeProvider_fields P u).2.2.2.1,
      (mergeProvider_fields P u).2.2.2.2.1, (mergeProvider_fields P u).2.2.2.2.2.1,
      (mergeProvider_fields P u).2.2.2.2.2.2.1, (mergeProvider_fields P u).2.2.2.2.2.2.2.1,
      (mergeProvider_fields P u).2.2.2.2.2.2.2.2.1,
      (mergeProvider_fields P u).2.2.2.2.2.2.2.2.2.1,
      (mergeProvider_fields P u).2.2.2.2.2.2.2.2.2.2.1,
      (mergeProvider_fields P u).2.2.2.2.2.2.2.2.2.2.2.1,
      (mergeProvider_fields P u).2.2.2.2.2.2.2.2.2.2.2.2.1,
      (mergeProvider_fields P u).2.2.2.2.2.2.2.2.2.2.2.2.2⟩ <;>
      simp [updateProvider, loadProviders, ensureConfigDir, hw, hany, hrep, saveProviders]
  · intro hany
    refine ⟨?_, ?_, ?_, ?_⟩ <;>
      simp [updateProvider, loadProviders, ensureConfigDir, hw, hany]

/-- Witness for C5: renaming `"P2"` in a two-provider store changes only its
`name`; all other fields of the stored record survive identically. -/
theorem updateProvider_spec_witness :
    (updateProvider "P2" { name := some "renamed" }
      ⟨FileState.ok demoSettings, FileState.ok ⟨[demoP1, demoP2], some "P1"⟩, true, []⟩).1
      = .ok true ∧
    ((updateProvider "P2" { name := some "renamed" }
      ⟨FileState.ok demoSettings, FileState.ok ⟨[demoP1, demoP2], some "P1"⟩, true, []⟩).2).providersFile
      = FileState.ok ⟨[demoP1,
          ⟨"P2", "renamed", demoSettingsB, none, some Category.api, some 2, none, none⟩],
          some "P1"⟩ := by
  obtain ⟨h1, h2, -⟩ :=
    (updateProvider_spec
      ⟨FileState.ok demoSettings, FileState.ok ⟨[demoP1, demoP2], some "P1"⟩, true, []⟩
      ⟨[demoP1, demoP2], some "P1"⟩ "P2" { name := some "renamed" } rfl).1
      [demoP1] demoP2 [] rfl (by simp [demoP1]) (by simp [demoP2])
  refine ⟨h1, ?_⟩
  rw [h2]
  simp [mergeProvider, coalesce, demoP2]

/-! ## C1 — switching with backfill -/

/-- **C1.** When a current provider `P1` (with a JS-truthy id `cid`) differs
from the existing target `P2` and the live settings file is present with
contents `L`, `switchTo(P2)` (i) overwrites `P1`'s stored `settingsConfig`
with `L` (backfill), (ii) sets `currentProviderId := P2.id` and persists the
whole config in one write, and (iii) only afterwards writes `P2`'s
`settingsConfig` to the live file — so afterwards `P1.settingsConfig` in
storage equals the pre-switch live contents, the pointer is `P2.id`, and the
live file equals `P2.settingsConfig` exactly.  If the live file is absent the
backfill step is skipped silently and everything else proceeds the same. -/
theorem switchProvider_backfill_spec (w : World) (c : ProvidersConfig)
    (cid tid : String) (P1 P2 : Provider) (L : ClaudeSettings)
    (hw : w.providersFile = FileState.ok c)
    (hcur : c.currentProviderId = some cid)
    (hcid : cid ≠ "")
    (hne : cid ≠ tid)
    (hfind1 : c.providers.find? (fun p => p.id == cid) = some P1)
    (hfind2 : c.providers.find? (fun p => p.id == tid) = some P2) :
    (w.liveFile = FileState.ok L →
      (switchProvider tid w).1 = .ok P2 ∧
      ((switchProvider tid w).2).providersFile =
        FileState.ok ⟨replaceFirst (fun p => p.id == cid)
          (fun p => { p with settingsConfig := L }) c.providers, some tid⟩ ∧
      (replaceFirst (fun p => p.id == cid) (fun p => { p with settingsConfig := L })
          c.providers).find? (fun p => p.id == cid) = some { P1 with settingsConfig := L } ∧
      ((switchProvider tid w).2).liveFile = FileState.ok P2.settingsConfig ∧
      ((switchProvider tid w).2).trace = w.trace ++
        [.providersWrite ⟨replaceFirst (fun p => p.id == cid)
            (fun p => { p with settingsConfig := L }) c.providers, some tid⟩,
         .liveWrite P2.settingsConfig]) ∧
    (w.liveFile = FileState.absent →
      (switchProvider tid w).1 = .ok P2 ∧
      ((switchProvider tid w).2).providersFile = FileState.ok ⟨c.providers, some tid⟩ ∧
      ((switchProvider tid w).2).liveFile = FileState.ok P2.settingsConfig ∧
      ((switchProvider tid w).2).trace = w.trace ++
        [.providersWrite ⟨c.providers, some tid⟩, .liveWrite P2.settingsConfig]) := by
  have hbeq0 : (cid == "") = false := beq_eq_false_iff_ne.mpr hcid
  have hbeq1 : (cid == tid) = false := beq_eq_false_iff_ne.mpr hne
  have hcond : backfillCondition c tid = true := by
    simp [backfillCondition, hcur, hbeq0, hbeq1]
  have hqP1 : (P1.id == cid) = true := by
    simpa using List.find?_some hfind1
  have hany : c.providers.any (fun p => p.id == cid) = true := by
    rw [List.any_eq_true]
    exact ⟨P1, List.mem_of_find?_eq_some hfind1, by simpa using hqP1⟩
  constructor
  · intro hlive
    have hbf : backfillCurrentProvider c ⟨w.liveFile, FileState.ok c, true, w.trace⟩ =
        (.ok ⟨replaceFirst (fun p => p.id == cid)
          (fun p => { p with settingsConfig := L }) c.providers, c.currentProviderId⟩,
         ⟨w.liveFile, FileState.ok c, true, w.trace⟩) := by
      simp [backfillCurrentProvider, hcur, hbeq0, hany, readLiveSettings,
        loadClaudeSettings, hlive]
    have hfindL : (replaceFirst (fun p => p.id == cid)
        (fun p => { p with settingsConfig := L }) c.providers).find?
          (fun p => p.id == cid) = some { P1 with settingsConfig := L } :=
      find?_replaceFirst_self _ _ _ _ hfind1 (fun x hx => hx)
    refine ⟨?_, ?_, hfindL, ?_, ?_⟩ <;>
      simp [switchProvider, loadProviders, ensureConfigDir, hw, hfind2, hcond, hbf,
        saveProviders, writeLiveSnapshot, saveClaudeSettings, hcur]
  · intro hlive
    have hbf : backfillCurrentProvider c ⟨w.liveFile, FileState.ok c, true, w.trace⟩ =
        (.ok c, ⟨w.liveFile, FileState.ok c, true, w.trace⟩) := by
      simp [backfillCurrentProvider, hcur, hbeq0, hany, readLiveSettings,
        loadClaudeSettings, hlive]
    refine ⟨?_, ?_, ?_, ?_⟩ <;>
      simp [switchProvider, loadProviders, ensureConfigDir, hw, hfind2, hcond, hbf,
        saveProviders, writeLiveSnapshot, saveClaudeSettings]

/-- Witness for C1: the spec's backfill scenario.  `P1` is current with stored
`{env:{TOKEN:"old"}}`, the live file holds the out-of-band edit
`{env:{TOKEN:"old", EXTRA:"user-edit"}}`; switching to `P2` stores the edited
snapshot on `P1`, repoints to `P2`, persists before touching the live file,
then makes the live file exactly `P2.settingsConfig`. -/
theorem switchProvider_backfill_spec_witness :
    (switchProvider "P2"
      ⟨FileState.ok demoEdited, FileState.ok ⟨[demoP1, demoP2], some "P1"⟩, true, []⟩).1
      = .ok demoP2 ∧
    ((switchProvider "P2"
      ⟨FileState.ok demoEdited, FileState.ok ⟨[demoP1, demoP2], some "P1"⟩, true, []⟩).2).providersFile
      = FileState.ok ⟨[⟨"P1", "one", demoEdited, none, none, some 1, none, none⟩, demoP2],
          some "P2"⟩ ∧
    ((switchProvider "P2"
      ⟨FileState.ok demoEdited, FileState.ok ⟨[demoP1, demoP2], some "P1"⟩, true, []⟩).2).liveFile
      = FileState.ok demoP2.settingsConfig ∧
    ((switchProvider "P2"
      ⟨FileState.ok demoEdited, FileState.ok ⟨[demoP1, demoP2], some "P1"⟩, true, []⟩).2).trace
      = [.providersWrite ⟨[⟨"P1", "one", demoEdited, none, none, some 1, none, none⟩, demoP2],
            some "P2"⟩,
         .liveWrite demoP2.settingsConfig] := by
  obtain ⟨h1, h2, -, h4, h5⟩ :=
    (switchProvider_backfill_spec
      ⟨FileState.ok demoEdited, FileState.ok ⟨[demoP1, demoP2], some "P1"⟩, true, []⟩
      ⟨[demoP1, demoP2], some "P1"⟩ "P1" "P2" demoP1 demoP2 demoEdited
      rfl rfl (by decide) (by decide)
      (by simp [demoP1, demoP2]) (by simp [demoP1, demoP2])).1 rfl
  refine ⟨h1, ?_, h4, ?_⟩
  · rw [h2]
    simp [replaceFirst, demoP1, demoP2]
  · rw [h5]
    simp [replaceFirst, demoP1, demoP2]

/-! ## C3 — failure behaviour of the atomic-write primitive -/

/-- At any path other than the temp path, the catch-block cleanup changes
nothing. -/
theorem cleanupTmp_apply_ne (env : AtomicEnv) (f : FS) (tmp q : FsPath) (h : q ≠ tmp) :
    cleanupTmp env f tmp q = f q := by
  unfold cleanupTmp
  split
  · simp [FS.removeFile, h]
  · rfl

/-- When the unlink step works, cleanup leaves no file at the temp path. -/
theorem cleanupTmp_apply_tmp (env : AtomicEnv) (f : FS) (tmp : FsPath)
    (hu : env.unlinkFails = false) : cleanupTmp env f tmp tmp = none := by
  unfold cleanupTmp
  by_cases hex : f.existsAt tmp = true
  · simp [hex, hu, FS.removeFile]
  · have hnone : f tmp = none := by
      unfold FS.existsAt at hex
      cases hft : f tmp
      · rfl
      · rw [hft] at hex; simp at hex
    simp [hex, hu, hnone]

/-- **C3.** If the write step or the rename step of the atomic-write primitive
fails, the target path's prior contents (or absence) are unchanged — no
partial file is left at the target; the primitive best-effort-deletes its
temporary file (shown here for a working unlink; when unlink also fails the
remaining conjuncts still hold, i.e. the cleanup failure is swallowed); and
the error returned is the original step's error, unchanged. The hypothesis
`hne` records that the target is not itself the chosen temp path (true of
both call sites, whose targets are `providers.json` / `settings.json`). -/
theorem atomicWrite_failure_safe (stem : String) (path : FsPath) (data : String)
    (env : AtomicEnv) (fs : FS) (e : WriteErr)
    (hne : path ≠ tmpPathFor stem path env.now)
    (h : (atomicWrite stem path data env fs).1 = .error e) :
    (atomicWrite stem path data env fs).2 path = fs path ∧
    (e = .writeFailed ↔ env.writeFails = true) ∧
    (env.unlinkFails = false →
      (atomicWrite stem path data env fs).2 (tmpPathFor stem path env.now) = none) := by
  by_cases hwf : env.writeFails = true
  · have he : e = .writeFailed := by
      simp [atomicWrite, hwf] at h
      exact h.symm
    subst he
    refine ⟨?_, by simp [hwf], ?_⟩
    · cases hl : env.leftover with
      | none => simp [atomicWrite, hwf, hl, cleanupTmp_apply_ne _ _ _ _ hne]
      | some d =>
        simp [atomicWrite, hwf, hl, cleanupTmp_apply_ne _ _ _ _ hne, FS.write, hne]
    · intro hu
      cases hl : env.leftover with
      | none => simp [atomicWrite, hwf, hl, cleanupTmp_apply_tmp _ _ _ hu]
      | some d => simp [atomicWrite, hwf, hl, cleanupTmp_apply_tmp _ _ _ hu]
  · have hwf' : env.writeFails = false := by simpa using hwf
    by_cases hrf : env.renameFails = true
    · have he : e = .renameFailed := by
        simp [atomicWrite, hwf', hrf] at h
        exact h.symm
      subst he
      refine ⟨?_, by simp [hwf'], ?_⟩
      · simp [atomicWrite, hwf', hrf, cleanupTmp_apply_ne _ _ _ _ hne, FS.write, hne]
      · intro hu
        simp [atomicWrite, hwf', hrf, cleanupTmp_apply_tmp _ _ _ hu]
    · have hrf' : env.renameFails = false := by simpa using hrf
      exfalso
      simp [atomicWrite, hwf', hrf'] at h

/-- Witness for C3: a rename failure while rewriting `providers.json` (whose
prior contents are `"old"`): the target still reads `"old"` and the temp file
is gone. -/
theorem atomicWrite_failure_safe_witness :
    (atomicWrite providersTmpStem ⟨"/home/u/.cc", "providers.json"⟩ "new"
      ⟨5, false, none, true, false⟩ demoFS).2 ⟨"/home/u/.cc", "providers.json"⟩
      = some "old" ∧
    (atomicWrite providersTmpStem ⟨"/home/u/.cc", "providers.json"⟩ "new"
      ⟨5, false, none, true, false⟩ demoFS).2
      (tmpPathFor providersTmpStem ⟨"/home/u/.cc", "providers.json"⟩ 5) = none := by
  obtain ⟨h1, -, h3⟩ :=
    atomicWrite_failure_safe providersTmpStem ⟨"/home/u/.cc", "providers.json"⟩ "new"
      ⟨5, false, none, true, false⟩ demoFS .renameFailed (by decide) rfl
  refine ⟨?_, h3 rfl⟩
  rw [h1]
  simp [demoFS]

/-! ## Decimal representation: `Nat.repr` is injective and dash-free

`generateId` and the temp-path name both interpolate `Date.now()` with
`toString`, i.e. `Nat.repr`; the correction theorems for C6/C7 need that two
distinct timestamps give distinct strings and that a decimal string contains
no `'-'`. -/

/-- `Nat.toDigitsCore`'s accumulator is append-only. -/
theorem toDigitsCore_append_acc (fuel : Nat) : ∀ (n : Nat) (ds : List Char),
    Nat.toDigitsCore 10 fuel n ds = Nat.toDigitsCore 10 fuel n [] ++ ds := by
  induction fuel with
  | zero => intro n ds; simp [Nat.toDigitsCore]
  | succ f ih =>
    intro n ds
    by_cases h : n / 10 = 0
    · simp [Nat.toDigitsCore, h]
    · simp only [Nat.toDigitsCore, h, if_false]
      rw [ih (n / 10) (Nat.digitChar (n % 10) :: ds), ih (n / 10) [Nat.digitChar (n % 10)]]
      simp

/-- Appending one digit multiplies the value by ten and adds the digit. -/
theorem digitsVal_append_digit (l : List Char) (c : Char) :
    digitsVal (l ++ [c]) = digitsVal l * 10 + digitVal c := by
  simp [digitsVal, List.foldl_append]

/-- `digitVal` inverts `Nat.digitChar` on decimal digits. -/
theorem digitVal_digitChar (n : Nat) (h : n < 10) :
    digitVal (Nat.digitChar n) = n := by
  interval_cases n <;> decide

/-- The digit string produced for `n` (with enough fuel) denotes `n`. -/
theorem digitsVal_toDigitsCore (fuel : Nat) : ∀ n : Nat, n < fuel →
    digitsVal (Nat.toDigitsCore 10 fuel n []) = n := by
  induction fuel with
  | zero => intro n h; omega
  | succ f ih =>
    intro n h
    by_cases hd : n / 10 = 0
    · have hn : n < 10 := by omega
      have h2 : Nat.toDigitsCore 10 (f + 1) n [] = [Nat.digitChar (n % 10)] := by
        simp [Nat.toDigitsCore, hd]
      have h1 : digitsVal [Nat.digitChar (n % 10)] = n % 10 := by
        simp [digitsVal, digitVal_digitChar (n % 10) (Nat.mod_lt n (by omega))]
      rw [h2, h1, Nat.mod_eq_of_lt hn]
    · have hlt : n / 10 < f := by omega
      have h2 : Nat.toDigitsCore 10 (f + 1) n []
          = Nat.toDigitsCore 10 f (n / 10) [Nat.digitChar (n % 10)] := by
        simp [Nat.toDigitsCore, hd]
      rw [h2, toDigitsCore_append_acc f (n / 10) [Nat.digitChar (n % 10)],
        digitsVal_append_digit, ih (n / 10) hlt,
        digitVal_digitChar (n % 10) (Nat.mod_lt n (by omega))]
      omega

/-- `Nat.repr` (the `toString` used by the template literals) is injective. -/
theorem natRepr_injective (m n : Nat) (h : Nat.repr m = Nat.repr n) : m = n := by
  have hdata : Nat.toDigits 10 m = Nat.toDigits 10 n := congrArg String.data h
  have hm : digitsVal (Nat.toDigits 10 m) = m :=
    digitsVal_toDigitsCore (m + 1) m (Nat.lt_succ_self m)
  have hn : digitsVal (Nat.toDigits 10 n) = n :=
    digitsVal_toDigitsCore (n + 1) n (Nat.lt_succ_self n)
  rw [← hm, ← hn, hdata]

/-- Every character produced by `Nat.toDigitsCore` is a digit character (or
was already in the accumulator). -/
theorem toDigitsCore_chars (fuel : Nat) : ∀ (n : Nat) (ds : List Char) (c : Char),
    c ∈ Nat.toDigitsCore 10 fuel n ds → c ∈ ds ∨ ∃ k, k < 10 ∧ c = Nat.digitChar k := by
  induction fuel with
  | zero =>
    intro n ds c hc
    exact .inl (by simpa [Nat.toDigitsCore] using hc)
  | succ f ih =>
    intro n ds c hc
    by_cases hd : n / 10 = 0
    · simp only [Nat.toDigitsCore, hd, if_true, List.mem_cons] at hc
      rcases hc with rfl | hc
      · exact .inr ⟨n % 10, Nat.mod_lt n (by omega), rfl⟩
      · exact .inl hc
    · simp only [Nat.toDigitsCore, hd, if_false] at hc
      rcases ih (n / 10) (Nat.digitChar (n % 10) :: ds) c hc with hin | hk
      · rcases List.mem_cons.mp hin with rfl | hin2
        · exact .inr ⟨n % 10, Nat.mod_lt n (by omega), rfl⟩
        · exact .inl hin2
      · exact .inr hk

/-- A decimal representation never contains `'-'`. -/
theorem repr_no_dash (n : Nat) : '-' ∉ (Nat.repr n).data := by
  intro hmem
  have hmem' : '-' ∈ Nat.toDigitsCore 10 (n + 1) n [] := hmem
  rcases toDigitsCore_chars (n + 1) n [] '-' hmem' with h | ⟨k, hk, he⟩
  · simp at h
  · have hne : Nat.digitChar k ≠ '-' := by interval_cases k <;> decide
    exact hne he.symm

/-- Unique splitting of `d ++ '-' :: r` when `d` is dash-free. -/
theorem append_dash_inj (d₁ : List Char) : ∀ (d₂ r₁ r₂ : List Char),
    '-' ∉ d₁ → '-' ∉ d₂ → d₁ ++ '-' :: r₁ = d₂ ++ '-' :: r₂ → d₁ = d₂ ∧ r₁ = r₂ := by
  induction d₁ with
  | nil =>
    intro d₂ r₁ r₂ h1 h2 h
    cases d₂ with
    | nil => simpa using h
    | cons y d₂ =>
      exfalso
      simp only [List.nil_append, List.cons_append, List.cons.injEq] at h
      exact h2 (by rw [h.1]; exact List.mem_cons_self y d₂)
  | cons x d₁ ih =>
    intro d₂ r₁ r₂ h1 h2 h
    cases d₂ with
    | nil =>
      exfalso
      simp only [List.cons_append, List.nil_append, List.cons.injEq] at h
      exact h1 (by rw [← h.1]; exact List.mem_cons_self x d₁)
    | cons y d₂ =>
      simp only [List.cons_append, List.cons.injEq] at h
      obtain ⟨rfl, h'⟩ := h
      obtain ⟨hd, hr⟩ := ih d₂ r₁ r₂ (fun hm => h1 (List.mem_cons_of_mem _ hm))
        (fun hm => h2 (List.mem_cons_of_mem _ hm)) h'
      exact ⟨by rw [hd], hr⟩

/-- The two components of a generated id are recoverable: equal ids come from
equal `Date.now()` readings and equal random slices. -/
theorem generateId_components (n₁ n₂ : Nat) (r₁ r₂ : String)
    (h : generateId n₁ r₁ = generateId n₂ r₂) : n₁ = n₂ ∧ r₁ = r₂ := by
  have hdata : (Nat.repr n₁).data ++ '-' :: r₁.data
      = (Nat.repr n₂).data ++ '-' :: r₂.data := by
    have hc := congrArg String.data h
    simpa [generateId, String.data_append] using hc
  obtain ⟨hd, hr⟩ := append_dash_inj (Nat.repr n₁).data (Nat.repr n₂).data r₁.data r₂.data
    (repr_no_dash n₁) (repr_no_dash n₂) hdata
  exact ⟨natRepr_injective n₁ n₂ (String.ext hd), String.ext hr⟩

/-! ## C6 — id generation under rapid sequential calls -/

/-- The id stored by a successful `addProvider` is exactly `generateId`'s
output for that call's oracle readings. -/
theorem addProvider_id_eq (i : ProviderInput) (n : Nat) (r : String) (cn : Nat) (w : World) :
    (addProvider i n r cn w).1 = .error .parseError ∨
    ((addProvider i n r cn w).1).map (fun p => p.id) = .ok (generateId n r) := by
  cases hpf : w.providersFile <;>
    simp [addProvider, loadProviders, ensureConfigDir, hpf, Except.map]

/-- **C6 counterexample.** Two `add` calls in immediate succession whose
`Date.now()` and `Math.random()` readings coincide produce the SAME id: the
scheme (millisecond timestamp + random slice) does not guarantee uniqueness,
it only makes collisions unlikely. -/
theorem addProvider_id_collision :
    twoRapidAddIds = some ("1700000000000-4fzyo82", "1700000000000-4fzyo82") := by
  rfl

/-- **C6 (amended).** `add` calls generate pairwise distinct ids whenever
their oracle readings differ — a different `Date.now()` millisecond or a
different random slice; uniqueness is guaranteed only under that proviso
(same-millisecond calls with the same random draw collide, see the
counterexample). -/
theorem addProvider_ids_distinct_of_distinct_oracle
    (i₁ i₂ : ProviderInput) (n₁ n₂ c₁ c₂ : Nat) (r₁ r₂ : String)
    (w₁ w₂ v₁ v₂ : World) (p₁ p₂ : Provider)
    (h₁ : addProvider i₁ n₁ r₁ c₁ w₁ = (.ok p₁, v₁))
    (h₂ : addProvider i₂ n₂ r₂ c₂ w₂ = (.ok p₂, v₂))
    (hne : n₁ ≠ n₂ ∨ r₁ ≠ r₂) : p₁.id ≠ p₂.id := by
  have hid₁ : p₁.id = generateId n₁ r₁ := by
    rcases addProvider_id_eq i₁ n₁ r₁ c₁ w₁ with he | hid
    · rw [h₁] at he; simp at he
    · rw [h₁] at hid; simpa [Except.map] using hid
  have hid₂ : p₂.id = generateId n₂ r₂ := by
    rcases addProvider_id_eq i₂ n₂ r₂ c₂ w₂ with he | hid
    · rw [h₂] at he; simp at he
    · rw [h₂] at hid; simpa [Except.map] using hid
  rw [hid₁, hid₂]
  intro hcontra
  obtain ⟨hn, hr⟩ := generateId_components n₁ n₂ r₁ r₂ hcontra
  rcases hne with hne | hne
  · exact hne hn
  · exact hne hr

/-- Witness for the amended C6: two adds one millisecond apart. -/
theorem addProvider_ids_distinct_witness : generateId 1 "a" ≠ generateId 2 "a" :=
  addProvider_ids_distinct_of_distinct_oracle demoInput demoInput 1 2 1 2 "a" "a"
    ⟨FileState.absent, FileState.absent, false, []⟩
    ⟨FileState.absent, FileState.absent, false, []⟩ _ _ _ _ rfl rfl (Or.inl (by decide))

/-! ## C7 — temp-filename uniqueness -/

/-- **C7 counterexample.** Two invocations of the provider-storage atomic
write in the same millisecond — here even writing two different targets in
the same directory — choose the same temporary filename. -/
theorem tmpPath_collision_same_millisecond :
    tmpPathFor providersTmpStem ⟨"/home/u/.cc", "providers.json"⟩ 1700000000000 =
    tmpPathFor providersTmpStem ⟨"/home/u/.cc", "other.json"⟩ 1700000000000 := rfl

/-- **C7 (amended).** Two invocations of the primitive with the same stem
choose distinct temporary filenames whenever their `Date.now()` readings
differ; invocations in the same millisecond with the same stem receive the
same name (see the counterexample). -/
theorem tmpPathFor_distinct_of_distinct_now (stem : String) (p₁ p₂ : FsPath) (n₁ n₂ : Nat)
    (h : n₁ ≠ n₂) : tmpPathFor stem p₁ n₁ ≠ tmpPathFor stem p₂ n₂ := by
  intro heq
  have hbase : stem ++ Nat.repr n₁ = stem ++ Nat.repr n₂ := congrArg FsPath.base heq
  have hdata := congrArg String.data hbase
  simp [String.data_append] at hdata
  exact h (natRepr_injective n₁ n₂ (String.ext hdata))

/-- Witness for the amended C7. -/
theorem tmpPathFor_distinct_witness :
    tmpPathFor providersTmpStem ⟨"/home/u/.cc", "providers.json"⟩ 1 ≠
    tmpPathFor providersTmpStem ⟨"/home/u/.cc", "providers.json"⟩ 2 :=
  tmpPathFor_distinct_of_distinct_now providersTmpStem _ _ 1 2 (by decide)

end CC
